import Mathlib

/-!
Verification of the sales-forecasting core of the Intelligent-POS-System
backend (`backend/app/routes/forecasting.py`).

The embedding models:
* Python `round(x, 2)` as exact round-half-to-even at two decimal places
  over the reals (`round2`);
* the SQL aggregation of `generate_forecast` (GROUP BY day, SUM, ORDER BY
  day ascending) as `aggregate`;
* `generate_arima_forecast` with the statsmodels fit treated as an
  abstract outcome (`FitOutcome`), since the statistical library is not
  part of the repository; the fallback moving-average branch is embedded
  from the source in full.

Dates are embedded as integer day numbers; one calendar day equals one
unit. Float values are embedded as real numbers.
-/

namespace POSForecast

/-- Round a real to the nearest integer, ties to the even integer
(the rounding mode of Python's builtin `round`). -/
noncomputable def roundHalfEven (x : ℝ) : ℤ :=
  if Int.fract x < 1/2 then ⌊x⌋
  else if 1/2 < Int.fract x then ⌊x⌋ + 1
  else if Even ⌊x⌋ then ⌊x⌋ else ⌊x⌋ + 1

/-- Embedding of Python `round(x, 2)`: round half-to-even at two decimals. -/
noncomputable def round2 (x : ℝ) : ℝ :=
  (roundHalfEven (100 * x) : ℝ) / 100

/-- Embedding of `np.mean(values)`: arithmetic mean of a list. -/
noncomputable def listMean (l : List ℝ) : ℝ := l.sum / l.length

/-- Embedding of `np.std(values)` (default `ddof = 0`): square root of the
mean of squared deviations, the divisor being the length `n`. -/
noncomputable def listStd (l : List ℝ) : ℝ :=
  Real.sqrt (((l.map (fun x => (x - listMean l) ^ 2)).sum) / l.length)

/-- Embedding of `np.convolve(values, np.ones(window)/window, mode='valid')`:
entry `k` is the dot product of `values[k .. k+window-1]` with the uniform
kernel `1/window` (the kernel is symmetric, so convolution reversal is
invisible). Length is `len(values) - window + 1`. -/
noncomputable def convolveValidUniform (values : List ℝ) (window : ℕ) : List ℝ :=
  (List.range (values.length - window + 1)).map
    (fun k => ((List.range window).map
      (fun j => values.getD (k + j) 0 * (1 / (window : ℝ)))).sum)

/-- Trailing moving average, phrased as the spec phrases it: the mean of each
window of `window` consecutive values. -/
noncomputable def trailingMovingAvg (values : List ℝ) (window : ℕ) : List ℝ :=
  (List.range (values.length - window + 1)).map
    (fun k => ((values.drop k).take window).sum / (window : ℝ))

/-- Embedding of the z-score selection cascade of `generate_arima_forecast`
(source lines 112-120). -/
def z_score (confidence_level : ℚ) : ℚ :=
  if 0.99 ≤ confidence_level then 2.576
  else if 0.95 ≤ confidence_level then 1.96
  else if 0.90 ≤ confidence_level then 1.645
  else 1.28

/-- Embedding of the fallback uncertainty margin of
`generate_arima_forecast` (source lines 130-131):
`margin = z_score * std_dev * (1 + i * 0.1)` for 0-based step `i`. -/
noncomputable def fallback_margin (z std_dev : ℝ) (i : ℕ) : ℝ :=
  z * std_dev * (1 + (i : ℝ) * 0.1)

/-! ## Data model

`HistoricalPoint` is one row of the aggregated daily series (the dicts
`{"date": ..., "value": ...}` of `generate_forecast`).  `ForecastPoint`
embeds the pydantic schema `ARIMAForecastPoint` with the date as an
integer day number.  -/

/-- One raw transaction, reduced to the two columns the forecasting query
reads: `date(transaction_date)` as a day number and `total_price`. -/
structure RawEvent where
  day : ℤ
  amount : ℝ

/-- One aggregated historical point: a calendar day and the summed value. -/
structure HistoricalPoint where
  date : ℤ
  value : ℝ
deriving Inhabited

/-- Embedding of the pydantic schema `ARIMAForecastPoint`. -/
structure ForecastPoint where
  date : ℤ
  predicted_value : ℝ
  lower_bound : ℝ
  upper_bound : ℝ
deriving Inhabited

/-- Embedding of the metrics dict built by `generate_arima_forecast`:
the primary branch sets `model_type`, `order`, `aic`, `bic`, `data_points`;
the fallback branch sets `model_type`, `window_size`, `data_points`,
`note`.  Keys absent from a branch are `none`. -/
structure ModelMetrics where
  model_type : String
  order : Option (ℕ × ℕ × ℕ)
  aic : Option ℝ
  bic : Option ℝ
  window_size : Option ℕ
  data_points : ℕ
  note : Option String

/-- The exception classes caught by the `except` clause of
`generate_arima_forecast` (source line 99): `(ImportError, ValueError,
RuntimeError)`.  The failure modes the spec enumerates (unsupported
dependency, singular matrix, non-convergence) surface as these classes. -/
inductive ExcKind
  | importError
  | valueError
  | runtimeError
deriving DecidableEq

/-- Modelled from the spec: the output of a successful statsmodels ARIMA
fit, which is not part of the repository.  Spec §4.2: "Primary model
output: predicted mean for each of the `horizon` future steps plus
model-native confidence interval bounds at the requested
`confidence_level`, plus fit_quality scalars when computable." -/
structure FitSuccess where
  predicted_mean : ℕ → ℝ
  conf_lower : ℕ → ℝ
  conf_upper : ℕ → ℝ
  aic : Option ℝ
  bic : Option ℝ

/-- Outcome of the attempted primary-model fit: success with model output,
or an exception of one of the caught classes. -/
inductive FitOutcome
  | success (fit : FitSuccess)
  | failure (e : ExcKind)

/-- Modelled from the spec: a well-formed interval output of the external
statistical library brackets its predicted mean (a confidence interval
`mean ± z·se` with positive `z` always contains the mean). -/
def FitOk : FitOutcome → Prop
  | .success fit => ∀ i, fit.conf_lower i ≤ fit.predicted_mean i ∧
      fit.predicted_mean i ≤ fit.conf_upper i
  | .failure _ => True

/-- The two HTTP 400 failures of `generate_forecast`, both of which the
spec maps to `InsufficientData`: no aggregated rows at all (source lines
210-214), and an empty forecast list, which `generate_arima_forecast`
returns exactly when fewer than 3 aggregated points exist (lines 226-230
with lines 44-45). -/
inductive ForecastError
  | insufficientHistory
  | emptyForecast
deriving DecidableEq

/-- Embedding of the pydantic schema `ARIMAForecastResponse`.  The
`forecast_generated_at` timestamp (`datetime.utcnow()` in the source) is
an integer clock value supplied as an explicit input `now`. -/
structure ARIMAForecastResponse where
  product_id : Option ℕ
  product_name : Option String
  forecast_generated_at : ℤ
  periods : ℕ
  historical_data : List HistoricalPoint
  forecast_data : List ForecastPoint
  model_metrics : Option ModelMetrics

/-! ## The aggregation step of `generate_forecast`

The route queries `date(transaction_date), sum(total_price)` grouped by
day and ordered by day ascending (source lines 190-208).  -/

/-- The distinct days on which at least one raw event falls. -/
def eventDays (raw : List RawEvent) : List ℤ :=
  (raw.map RawEvent.day).dedup

/-- Sum of the amounts of the events falling on day `d` (SQL `SUM` within
one `GROUP BY` bucket). -/
def daySum (raw : List RawEvent) (d : ℤ) : ℝ :=
  ((raw.filter (fun e => e.day = d)).map RawEvent.amount).sum

/-- Embedding of the historical-data query of `generate_forecast`:
one bucket per distinct event day, value the summed amounts of that day,
ordered by day ascending. -/
def aggregate (raw : List RawEvent) : List HistoricalPoint :=
  (List.insertionSort (· ≤ ·) (eventDays raw)).map
    (fun d => { date := d, value := daySum raw d })

/-- Order-by-date relation used to embed `df.sort_index()`. -/
def dateLe (a b : HistoricalPoint) : Prop := a.date ≤ b.date

instance : DecidableRel dateLe := fun a b => Int.decLe a.date b.date

/-- Embedding of the order-selection heuristic (source line 62):
`(1,1,1)` when at least 10 points, else `(1,0,1)`. -/
def arimaOrder (n : ℕ) : ℕ × ℕ × ℕ :=
  if 10 ≤ n then (1, 1, 1) else (1, 0, 1)

/-- Metrics dict of the primary branch (source lines 89-95). -/
noncomputable def primaryMetrics (fit : FitSuccess) (n : ℕ) : ModelMetrics :=
  { model_type := "ARIMA"
    order := some (arimaOrder n)
    aic := fit.aic.map round2
    bic := fit.bic.map round2
    window_size := none
    data_points := n
    note := none }

/-- Metrics dict of the fallback branch (source lines 140-145). -/
def fallbackMetrics (window n : ℕ) : ModelMetrics :=
  { model_type := "Moving Average (Fallback)"
    order := none
    aic := none
    bic := none
    window_size := some window
    data_points := n
    note := some "Using simplified forecast due to limited data or dependencies" }

/-- One forecast point of the primary branch (source lines 80-86):
predicted value and lower bound clamped at zero then rounded, upper bound
rounded without clamping. -/
noncomputable def primaryPoint (fit : FitSuccess) (last_date : ℤ) (i : ℕ) :
    ForecastPoint :=
  { date := last_date + 1 + (i : ℤ)
    predicted_value := round2 (max 0 (fit.predicted_mean i))
    lower_bound := round2 (max 0 (fit.conf_lower i))
    upper_bound := round2 (fit.conf_upper i) }

/-- One forecast point of the fallback branch (source lines 128-138). -/
noncomputable def fallbackPoint (base_forecast std_dev : ℝ) (z : ℚ)
    (last_date : ℤ) (i : ℕ) : ForecastPoint :=
  { date := last_date + 1 + (i : ℤ)
    predicted_value := round2 (max 0 base_forecast)
    lower_bound := round2 (max 0 (base_forecast - fallback_margin (z : ℝ) std_dev i))
    upper_bound := round2 (base_forecast + fallback_margin (z : ℝ) std_dev i) }

/-- The source's local `base_forecast` (lines 102-106) as a function of the
(sorted) historical values: last entry of the valid-mode convolution with
window `min(7, n)`, or `np.mean(values)` when the convolution is empty. -/
noncomputable def codeBase (values : List ℝ) : ℝ :=
  if 0 < (convolveValidUniform values (min 7 values.length)).length
  then (convolveValidUniform values (min 7 values.length)).getLastD 0
  else listMean values

/-- The source's local `std_dev` (line 109): `np.std(values)` when more
than one value, else 0. -/
noncomputable def codeStd (values : List ℝ) : ℝ :=
  if 1 < values.length then listStd values else 0

/-- Embedding of `generate_arima_forecast` (source lines 33-147).

Control flow of the source: fewer than 3 points returns `([], {})`
(embedded as `([], none)`); otherwise the data is indexed by date and
sorted (`df.set_index('date').sort_index()`), the primary fit is
attempted, and on `ImportError`/`ValueError`/`RuntimeError` the
moving-average fallback runs.  The fit attempt is an explicit
`FitOutcome` argument since the statistical library is external to the
repository.  Forecast dates are `last_date + 1 + i` for `i < periods` in
both branches (`pd.date_range(start=last_date + timedelta(days=1),
periods=periods, freq='D')`). -/
noncomputable def generate_arima_forecast (fit_outcome : FitOutcome)
    (historical_data : List HistoricalPoint) (periods : ℕ)
    (confidence_level : ℚ) : List ForecastPoint × Option ModelMetrics :=
  if historical_data.length < 3 then ([], none)
  else
    let sorted := List.insertionSort dateLe historical_data
    let values := sorted.map HistoricalPoint.value
    let last_date := (sorted.getLastD default).date
    match fit_outcome with
    | .success fit =>
        ((List.range periods).map (primaryPoint fit last_date),
         some (primaryMetrics fit values.length))
    | .failure _ =>
        ((List.range periods).map
          (fallbackPoint (codeBase values) (codeStd values)
            (z_score confidence_level) last_date),
         some (fallbackMetrics (min 7 values.length) values.length))

/-- Embedding of the route handler `generate_forecast` (source lines
179-240), restricted to the global path (no `product_id` filter; the
product branch only restricts the raw events upstream and 404s on a
missing product).  `now` is the value of `datetime.utcnow()`. -/
noncomputable def generate_forecast (raw : List RawEvent) (periods : ℕ)
    (confidence_level : ℚ) (fit_outcome : FitOutcome) (now : ℤ) :
    Except ForecastError ARIMAForecastResponse :=
  let results := aggregate raw
  if results.isEmpty then
    .error .insufficientHistory
  else
    let fm := generate_arima_forecast fit_outcome results periods confidence_level
    if fm.1.isEmpty then
      .error .emptyForecast
    else
      .ok { product_id := none
            product_name := none
            forecast_generated_at := now
            periods := periods
            historical_data := results
            forecast_data := fm.1
            model_metrics := fm.2 }

/-- Forgets the wall-clock field of a `generate_forecast` result. -/
noncomputable def eraseTimestamp :
    Except ForecastError ARIMAForecastResponse →
    Except ForecastError ARIMAForecastResponse
  | .error e => .error e
  | .ok r => .ok { r with forecast_generated_at := 0 }

/-! ## Reference definitions for claim C4

`refC4Point` follows the words of the claim (and spec §4.2-4.3): trailing
moving average, last value or mean, sample standard deviation with
Bessel's correction (the standard reading of "sample standard deviation",
divisor `n - 1`, defined as 0 when `n = 1`), fixed z-score breakpoints,
margin with growth factor `1 + 0.1·i`, and NO rounding of the outputs.

`refC4AmendedPoint` is the amended reference: the standard deviation uses
divisor `n` (what `np.std` computes) and all three outputs pass through
`round2`, as the source does. -/

/-- Z-score breakpoints as the spec states them:
`≥0.99→2.576, ≥0.95→1.96, ≥0.90→1.645, otherwise→1.28`. -/
def ref_z (confidence_level : ℚ) : ℚ :=
  if 0.99 ≤ confidence_level then 2.576
  else if 0.95 ≤ confidence_level then 1.96
  else if 0.90 ≤ confidence_level then 1.645
  else 1.28

/-- Sample standard deviation with Bessel's correction (divisor `n - 1`),
0 when `n = 1`, as claim C4's reference definition reads. -/
noncomputable def refSampleStd (values : List ℝ) : ℝ :=
  if values.length = 1 then 0
  else Real.sqrt (((values.map (fun x => (x - listMean values) ^ 2)).sum) /
    ((values.length : ℝ) - 1))

/-- Standard deviation with divisor `n` (the quantity `np.std` computes),
0 when `n = 1`; used by the amended reference definition. -/
noncomputable def refStdDivN (values : List ℝ) : ℝ :=
  if values.length = 1 then 0
  else Real.sqrt (((values.map (fun x => (x - listMean values) ^ 2)).sum) /
    (values.length : ℝ))

/-- The spec's fallback base value: "the forecast base value for every
future step is the last computed moving-average value (if the moving
average has at least one point) or the simple mean of history otherwise",
with window `min(7, sample_size)`. -/
noncomputable def refBase (values : List ℝ) : ℝ :=
  if trailingMovingAvg values (min 7 values.length) = []
  then listMean values
  else (trailingMovingAvg values (min 7 values.length)).getLastD 0

/-- Claim C4's reference fallback forecast
`(predicted_value, lower_bound, upper_bound)` for step `i`, as stated:
base from the trailing moving average with window `min(7, n)` (or the mean
of history if the moving average is empty), sample standard deviation,
z-score breakpoints, margin `z·std·(1 + 0.1·i)`, outputs
`(max 0 base, max 0 (base - margin), base + margin)` without rounding. -/
noncomputable def refC4Point (values : List ℝ) (confidence_level : ℚ)
    (i : ℕ) : ℝ × ℝ × ℝ :=
  (max 0 (refBase values),
   max 0 (refBase values -
     (ref_z confidence_level : ℝ) * refSampleStd values * (1 + 0.1 * (i : ℝ))),
   refBase values +
     (ref_z confidence_level : ℝ) * refSampleStd values * (1 + 0.1 * (i : ℝ)))

/-- The amended reference fallback forecast: as `refC4Point` but with the
divisor-`n` standard deviation and all three outputs rounded to two
decimals, which is what the source computes. -/
noncomputable def refC4AmendedPoint (values : List ℝ) (confidence_level : ℚ)
    (i : ℕ) : ℝ × ℝ × ℝ :=
  (round2 (max 0 (refBase values)),
   round2 (max 0 (refBase values -
     (ref_z confidence_level : ℝ) * refStdDivN values * (1 + 0.1 * (i : ℝ)))),
   round2 (refBase values +
     (ref_z confidence_level : ℝ) * refStdDivN values * (1 + 0.1 * (i : ℝ))))

/-! ## Projection helpers and concrete inputs used by the witnesses and
counterexamples -/

/-- First forecast point of a route result (`default` on the error side). -/
noncomputable def point0 (x : Except ForecastError ARIMAForecastResponse) :
    ForecastPoint :=
  match x with
  | .ok r => r.forecast_data.getD 0 default
  | .error _ => default

/-- The `model_type` string of a route result (empty on the error side). -/
noncomputable def mtypeOf (x : Except ForecastError ARIMAForecastResponse) :
    String :=
  match x with
  | .ok r => (r.model_metrics.map ModelMetrics.model_type).getD ""
  | .error _ => ""

/-- Whether a route result is a success (HTTP 200) rather than a raised
`HTTPException`. -/
def respOk : Except ForecastError ARIMAForecastResponse → Bool
  | .ok _ => true
  | .error _ => false

/-- The timestamp field of a route result (`-1` on the error side). -/
noncomputable def stampOf (x : Except ForecastError ARIMAForecastResponse) :
    ℤ :=
  match x with
  | .ok r => r.forecast_generated_at
  | .error _ => -1

/-- Raw history with a one-day gap: events on day 0 and day 2 only. -/
def rawGap : List RawEvent := [⟨0, 1⟩, ⟨2, 1⟩]

/-- Raw history of three consecutive days with value 5 each. -/
def raw3 : List RawEvent := [⟨0, 5⟩, ⟨1, 5⟩, ⟨2, 5⟩]

/-- Raw history with only two distinct days. -/
def rawTwo : List RawEvent := [⟨0, 4⟩, ⟨1, 4⟩]

/-- Aggregated three-day history with constant value `1.001`. -/
def hist1001 : List HistoricalPoint := [⟨0, 1.001⟩, ⟨1, 1.001⟩, ⟨2, 1.001⟩]

/-- Aggregated three-day history with values `0, 0, 3`. -/
def hist003 : List HistoricalPoint := [⟨0, 0⟩, ⟨1, 0⟩, ⟨2, 3⟩]

/-- Aggregated three-day history with constant value `5`. -/
def hist5 : List HistoricalPoint := [⟨0, 5⟩, ⟨1, 5⟩, ⟨2, 5⟩]

/-- A fit outcome whose interval lies entirely below zero: predicted mean
`-10` with confidence interval `[-20, -5]` at every step.  A declining
series can produce exactly this from the primary model. -/
def fitNeg : FitOutcome :=
  .success ⟨fun _ => -10, fun _ => -20, fun _ => -5, none, none⟩

/-- A benign constant fit outcome: mean `5`, interval `[4, 6]`. -/
def fitConst : FitOutcome :=
  .success ⟨fun _ => 5, fun _ => 4, fun _ => 6, none, none⟩

/-! ## Theorems: rounding -/

theorem roundHalfEven_le (x : ℝ) : (roundHalfEven x : ℝ) ≤ x + 1/2 := by
  unfold roundHalfEven
  have hfl : (⌊x⌋ : ℝ) ≤ x := Int.floor_le x
  have hfr : 0 ≤ Int.fract x := Int.fract_nonneg x
  have hx : x = (⌊x⌋ : ℝ) + Int.fract x := by
    rw [Int.fract]; ring
  split
  · linarith
  · split
    · push_cast; linarith
    · split
      · linarith
      · push_cast
        have : Int.fract x = 1/2 := le_antisymm (by linarith) (by linarith)
        linarith

theorem le_roundHalfEven (x : ℝ) : x - 1/2 ≤ (roundHalfEven x : ℝ) := by
  unfold roundHalfEven
  have hfr : Int.fract x < 1 := Int.fract_lt_one x
  have hx : x = (⌊x⌋ : ℝ) + Int.fract x := by
    rw [Int.fract]; ring
  split
  · linarith
  · split
    · push_cast; linarith
    · split
      · have : Int.fract x = 1/2 := le_antisymm (by linarith) (by linarith)
        linarith
      · push_cast
        have : Int.fract x = 1/2 := le_antisymm (by linarith) (by linarith)
        linarith

theorem roundHalfEven_mono {x y : ℝ} (h : x ≤ y) :
    roundHalfEven x ≤ roundHalfEven y := by
  rcases eq_or_lt_of_le h with rfl | hlt
  · exact le_rfl
  · have h1 : (roundHalfEven x : ℝ) ≤ x + 1/2 := roundHalfEven_le x
    have h2 : y - 1/2 ≤ (roundHalfEven y : ℝ) := le_roundHalfEven y
    have : (roundHalfEven x : ℝ) < (roundHalfEven y : ℝ) + 1 := by linarith
    have := Int.lt_add_one_iff.mp (by exact_mod_cast this)
    exact this

theorem roundHalfEven_intCast (n : ℤ) : roundHalfEven (n : ℝ) = n := by
  unfold roundHalfEven
  rw [Int.fract_intCast, Int.floor_intCast]
  norm_num

/-- Evaluation rule: if `n ≤ x < n + 1/2` then `x` rounds to `n`. -/
theorem roundHalfEven_eq_of_bounds (n : ℤ) (x : ℝ)
    (h1 : (n : ℝ) ≤ x) (h2 : x < (n : ℝ) + 1/2) : roundHalfEven x = n := by
  have hfl : ⌊x⌋ = n := by
    rw [Int.floor_eq_iff]
    constructor
    · exact h1
    · linarith
  have hfr : Int.fract x < 1/2 := by
    rw [Int.fract, hfl]
    linarith
  unfold roundHalfEven
  rw [if_pos hfr, hfl]

theorem round2_mono {x y : ℝ} (h : x ≤ y) : round2 x ≤ round2 y := by
  unfold round2
  have := roundHalfEven_mono (x := 100 * x) (y := 100 * y) (by linarith)
  have hc : (roundHalfEven (100 * x) : ℝ) ≤ (roundHalfEven (100 * y) : ℝ) := by
    exact_mod_cast this
  linarith

theorem round2_nonneg {x : ℝ} (h : 0 ≤ x) : 0 ≤ round2 x := by
  unfold round2
  have h1 : (100 : ℝ) * x - 1/2 ≤ (roundHalfEven (100 * x) : ℝ) :=
    le_roundHalfEven (100 * x)
  have h2 : (-1 : ℤ) < roundHalfEven (100 * x) := by
    have : (-1 : ℝ) < (roundHalfEven (100 * x) : ℝ) := by linarith
    exact_mod_cast this
  have h3 : (0 : ℤ) ≤ roundHalfEven (100 * x) := by omega
  have : (0 : ℝ) ≤ (roundHalfEven (100 * x) : ℝ) := by exact_mod_cast h3
  linarith

theorem round2_intCast (n : ℤ) : round2 (n : ℝ) = n := by
  unfold round2
  have : (100 : ℝ) * n = ((100 * n : ℤ) : ℝ) := by push_cast; ring
  rw [this, roundHalfEven_intCast]
  push_cast
  ring

theorem round2_zero : round2 0 = 0 := by
  have := round2_intCast 0
  simpa using this

/-- Every value produced by `round2` is an integer multiple of `1/100`. -/
theorem round2_eq_int_div (x : ℝ) :
    ∃ k : ℤ, round2 x = (k : ℝ) / 100 :=
  ⟨roundHalfEven (100 * x), rfl⟩

theorem z_score_pos (c : ℚ) : 0 < z_score c := by
  unfold z_score
  split
  · norm_num
  · split
    · norm_num
    · split
      · norm_num
      · norm_num

theorem listStd_nonneg (l : List ℝ) : 0 ≤ listStd l := Real.sqrt_nonneg _

/-! ## Theorems: list plumbing -/

theorem getD_map_range {α : Type} [Inhabited α] (f : ℕ → α) {per i : ℕ}
    (h : i < per) : ((List.range per).map f).getD i default = f i := by
  rw [List.getD_eq_getElem?_getD]
  rw [List.getElem?_eq_getElem (by simpa using h)]
  simp

theorem take_drop_eq_map_range (values : List ℝ) (k w : ℕ)
    (hkw : k + w ≤ values.length) :
    (values.drop k).take w = (List.range w).map (fun j => values.getD (k + j) 0) := by
  apply List.ext_getElem
  · simp
    omega
  · intro j h1 h2
    simp only [List.getElem_take, List.getElem_drop, List.getElem_map,
      List.getElem_range]
    rw [List.getD_eq_getElem]

/-- The source's `np.convolve(values, np.ones(w)/w, 'valid')` computes
exactly the trailing moving average the spec demands. -/
theorem convolve_eq_trailingMovingAvg (values : List ℝ) (w : ℕ)
    (hw : w ≤ values.length) :
    convolveValidUniform values w = trailingMovingAvg values w := by
  unfold convolveValidUniform trailingMovingAvg
  apply List.ext_getElem
  · simp
  · intro k h1 h2
    simp only [List.getElem_map, List.getElem_range]
    have hk : k < values.length - w + 1 := by simpa using h1
    rw [take_drop_eq_map_range values k w (by omega)]
    rw [List.sum_map_mul_right, mul_one_div]

/-! ## Theorems: reductions of the pipeline -/

theorem gaf_len (fit : FitOutcome) (hist : List HistoricalPoint) (per : ℕ)
    (conf : ℚ) (h3 : ¬ hist.length < 3) :
    (generate_arima_forecast fit hist per conf).1.length = per := by
  unfold generate_arima_forecast
  rw [if_neg h3]
  cases fit <;> simp

theorem gaf_success_eq (fit : FitSuccess) (hist : List HistoricalPoint)
    (per : ℕ) (conf : ℚ) (h3 : ¬ hist.length < 3)
    (hs : List.Sorted dateLe hist) :
    generate_arima_forecast (.success fit) hist per conf =
      ((List.range per).map (primaryPoint fit (hist.getLastD default).date),
       some (primaryMetrics fit hist.length)) := by
  unfold generate_arima_forecast
  rw [if_neg h3, List.Sorted.insertionSort_eq hs]
  simp

theorem gaf_failure_eq (e : ExcKind) (hist : List HistoricalPoint)
    (per : ℕ) (conf : ℚ) (h3 : ¬ hist.length < 3)
    (hs : List.Sorted dateLe hist) :
    generate_arima_forecast (.failure e) hist per conf =
      ((List.range per).map
        (fallbackPoint (codeBase (hist.map HistoricalPoint.value))
          (codeStd (hist.map HistoricalPoint.value))
          (z_score conf) (hist.getLastD default).date),
       some (fallbackMetrics (min 7 hist.length) hist.length)) := by
  unfold generate_arima_forecast
  rw [if_neg h3, List.Sorted.insertionSort_eq hs]
  simp [List.length_map]

theorem aggregate_sorted (raw : List RawEvent) :
    List.Sorted dateLe (aggregate raw) := by
  have h := List.sorted_insertionSort (· ≤ ·) (eventDays raw)
  exact h.map _ (fun _ _ hab => hab)

theorem aggregate_strictSorted (raw : List RawEvent) :
    List.Pairwise (fun p q : HistoricalPoint => p.date < q.date)
      (aggregate raw) := by
  have hnd : (List.insertionSort (· ≤ ·) (eventDays raw)).Nodup :=
    ((List.perm_insertionSort _ _).nodup_iff).mpr (List.nodup_dedup _)
  have hs : List.Sorted (· ≤ ·) (List.insertionSort (· ≤ ·) (eventDays raw)) :=
    List.sorted_insertionSort _ _
  have hlt : List.Pairwise (· < ·) (List.insertionSort (· ≤ ·) (eventDays raw)) :=
    (hs.and hnd).imp (fun h => lt_of_le_of_ne h.1 h.2)
  exact hlt.map _ (fun _ _ h => h)

theorem gf_ok_eq (raw : List RawEvent) (per : ℕ) (conf : ℚ)
    (fit : FitOutcome) (now : ℤ) (h3 : 3 ≤ (aggregate raw).length)
    (hp : 1 ≤ per) :
    generate_forecast raw per conf fit now =
      .ok { product_id := none
            product_name := none
            forecast_generated_at := now
            periods := per
            historical_data := aggregate raw
            forecast_data := (generate_arima_forecast fit (aggregate raw) per conf).1
            model_metrics := (generate_arima_forecast fit (aggregate raw) per conf).2 } := by
  unfold generate_forecast
  have hne : (aggregate raw).isEmpty = false := by
    rw [List.isEmpty_eq_false]
    intro h
    rw [h] at h3
    simp at h3
  have hfd : (generate_arima_forecast fit (aggregate raw) per conf).1.isEmpty = false := by
    rw [List.isEmpty_eq_false]
    intro h
    have := gaf_len fit (aggregate raw) per conf (by omega)
    rw [h] at this
    simp at this
    omega
  simp [hne, hfd]


theorem gaf_getD_success (fit : FitSuccess) (hist : List HistoricalPoint)
    (per : ℕ) (conf : ℚ) (i : ℕ) (h3 : ¬ hist.length < 3) (hi : i < per) :
    (generate_arima_forecast (.success fit) hist per conf).1.getD i default =
      primaryPoint fit
        ((List.insertionSort dateLe hist).getLastD default).date i := by
  unfold generate_arima_forecast
  rw [if_neg h3]
  exact getD_map_range _ hi

theorem gaf_getD_failure (e : ExcKind) (hist : List HistoricalPoint)
    (per : ℕ) (conf : ℚ) (i : ℕ) (h3 : ¬ hist.length < 3) (hi : i < per) :
    (generate_arima_forecast (.failure e) hist per conf).1.getD i default =
      fallbackPoint
        (codeBase ((List.insertionSort dateLe hist).map HistoricalPoint.value))
        (codeStd ((List.insertionSort dateLe hist).map HistoricalPoint.value))
        (z_score conf)
        ((List.insertionSort dateLe hist).getLastD default).date i := by
  unfold generate_arima_forecast
  rw [if_neg h3]
  exact getD_map_range _ hi

/-- C1: for every history input and schema-valid horizon (`periods ≥ 1`),
`generate_forecast` fails with its insufficient-data error if and only if
the aggregated historical series has fewer than 3 points (an empty history
fails in particular); with 3 or more points it returns a forecast result. -/
theorem C1_insufficient_iff (raw : List RawEvent) (periods : ℕ) (conf : ℚ)
    (fit : FitOutcome) (now : ℤ) (hp : 1 ≤ periods) :
    respOk (generate_forecast raw periods conf fit now) = false ↔
      (aggregate raw).length < 3 := by
  constructor
  · intro h
    by_contra hlen
    rw [gf_ok_eq raw periods conf fit now (by omega) hp] at h
    simp [respOk] at h
  · intro hlen
    unfold generate_forecast
    by_cases hne : (aggregate raw).isEmpty
    · simp [hne, respOk]
    · have hfd : (generate_arima_forecast fit (aggregate raw) periods conf).1 = [] := by
        unfold generate_arima_forecast
        rw [if_pos hlen]
      simp [hne, hfd, respOk]

theorem C1_witness :
    respOk (generate_forecast rawTwo 1 (95/100) (.failure .importError) 0) = false ↔
      (aggregate rawTwo).length < 3 :=
  C1_insufficient_iff rawTwo 1 (95/100) (.failure .importError) 0 (by decide)

/-- C2: with at least 3 aggregated points and `periods ≥ 1`,
`generate_forecast` succeeds with exactly `periods` forecast points, whose
dates are the contiguous calendar days `last historical date + 1 + i`
(hence strictly increasing, starting one day after the last historical
date), in both the primary and the fallback branch. -/
theorem C2_horizon_dates (raw : List RawEvent) (periods : ℕ) (conf : ℚ)
    (fit : FitOutcome) (now : ℤ) (h3 : 3 ≤ (aggregate raw).length)
    (hp : 1 ≤ periods) :
    ∃ resp, generate_forecast raw periods conf fit now = .ok resp ∧
      resp.forecast_data.length = periods ∧
      ∀ i : ℕ, i < periods →
        (resp.forecast_data.getD i default).date =
          (resp.historical_data.getLastD default).date + 1 + (i : ℤ) := by
  refine ⟨_, gf_ok_eq raw periods conf fit now h3 hp, ?_, ?_⟩
  · exact gaf_len fit (aggregate raw) periods conf (by omega)
  · intro i hi
    show ((generate_arima_forecast fit (aggregate raw) periods conf).1.getD i
      default).date = ((aggregate raw).getLastD default).date + 1 + (i : ℤ)
    cases fit with
    | success f =>
        rw [gaf_getD_success f (aggregate raw) periods conf i (by omega) hi]
        rw [List.Sorted.insertionSort_eq (aggregate_sorted raw)]
        rfl
    | failure e =>
        rw [gaf_getD_failure e (aggregate raw) periods conf i (by omega) hi]
        rw [List.Sorted.insertionSort_eq (aggregate_sorted raw)]
        rfl

theorem C2_witness :
    ∃ resp, generate_forecast raw3 2 (95/100) (.failure .valueError) 0 = .ok resp ∧
      resp.forecast_data.length = 2 ∧
      ∀ i : ℕ, i < 2 →
        (resp.forecast_data.getD i default).date =
          (resp.historical_data.getLastD default).date + 1 + (i : ℤ) :=
  C2_horizon_dates raw3 2 (95/100) (.failure .valueError) 0 (by decide) (by decide)


/-- C6: with at least 3 aggregated points, a fit failure of any of the
caught exception classes is never propagated: `generate_forecast` still
returns a forecast result, tagged with the fallback model type. -/
theorem C6_fallback_on_fit_failure (raw : List RawEvent) (periods : ℕ)
    (conf : ℚ) (now : ℤ) (e : ExcKind) (h3 : 3 ≤ (aggregate raw).length)
    (hp : 1 ≤ periods) :
    ∃ resp, generate_forecast raw periods conf (.failure e) now = .ok resp ∧
      resp.model_metrics.map ModelMetrics.model_type =
        some "Moving Average (Fallback)" := by
  refine ⟨_, gf_ok_eq raw periods conf (.failure e) now h3 hp, ?_⟩
  show ((generate_arima_forecast (.failure e) (aggregate raw) periods conf).2).map
    ModelMetrics.model_type = some "Moving Average (Fallback)"
  rw [gaf_failure_eq e (aggregate raw) periods conf (by omega) (aggregate_sorted raw)]
  rfl

theorem C6_witness :
    ∃ resp, generate_forecast raw3 1 (95/100) (.failure .runtimeError) 0 = .ok resp ∧
      resp.model_metrics.map ModelMetrics.model_type =
        some "Moving Average (Fallback)" :=
  C6_fallback_on_fit_failure raw3 1 (95/100) 0 .runtimeError (by decide) (by decide)

/-- C7 (amended): the returned `model_type` is always one of exactly two
strings, namely `"ARIMA"` when the primary fit succeeds and
`"Moving Average (Fallback)"` when the fallback estimator is used (not
the literals `"primary"` / `"fallback"` of the claim). -/
theorem C7_model_type (raw : List RawEvent) (periods : ℕ) (conf : ℚ)
    (fit : FitOutcome) (now : ℤ) (h3 : 3 ≤ (aggregate raw).length)
    (hp : 1 ≤ periods) :
    ∃ resp, generate_forecast raw periods conf fit now = .ok resp ∧
      resp.model_metrics.map ModelMetrics.model_type =
        some (match fit with
              | .success _ => "ARIMA"
              | .failure _ => "Moving Average (Fallback)") := by
  refine ⟨_, gf_ok_eq raw periods conf fit now h3 hp, ?_⟩
  cases fit with
  | success f =>
      show ((generate_arima_forecast (.success f) (aggregate raw) periods conf).2).map
        ModelMetrics.model_type = some "ARIMA"
      rw [gaf_success_eq f (aggregate raw) periods conf (by omega) (aggregate_sorted raw)]
      rfl
  | failure e =>
      show ((generate_arima_forecast (.failure e) (aggregate raw) periods conf).2).map
        ModelMetrics.model_type = some "Moving Average (Fallback)"
      rw [gaf_failure_eq e (aggregate raw) periods conf (by omega) (aggregate_sorted raw)]
      rfl

theorem C7_witness :
    ∃ resp, generate_forecast raw3 1 (95/100) fitConst 0 = .ok resp ∧
      resp.model_metrics.map ModelMetrics.model_type =
        some (match fitConst with
              | .success _ => "ARIMA"
              | .failure _ => "Moving Average (Fallback)") :=
  C7_model_type raw3 1 (95/100) fitConst 0 (by decide) (by decide)

/-- C7 (counterexample): at a concrete successful run the model type is
`"ARIMA"`, which is neither of the two values `"primary"` and
`"fallback"` the claim asserts. -/
theorem C7_counterexample :
    mtypeOf (generate_forecast raw3 1 (95/100) fitConst 0) ≠ "primary" ∧
    mtypeOf (generate_forecast raw3 1 (95/100) fitConst 0) ≠ "fallback" := by
  constructor <;> decide

/-- C8: for fixed non-negative standard deviation and fixed confidence
level, the fallback margin is non-decreasing in the step index. -/
theorem C8_margin_monotone (conf : ℚ) (std : ℝ) (i j : ℕ)
    (hstd : 0 ≤ std) (hij : i ≤ j) :
    fallback_margin (z_score conf : ℝ) std i ≤
      fallback_margin (z_score conf : ℝ) std j := by
  unfold fallback_margin
  have hz : (0 : ℝ) ≤ (z_score conf : ℝ) := by
    have := z_score_pos conf
    exact_mod_cast this.le
  have hij' : (i : ℝ) ≤ (j : ℝ) := Nat.cast_le.mpr hij
  have h1 : (0 : ℝ) ≤ (z_score conf : ℝ) * std := mul_nonneg hz hstd
  nlinarith [h1, hij']

theorem C8_witness :
    fallback_margin (z_score (95/100) : ℝ) 1 0 ≤
      fallback_margin (z_score (95/100) : ℝ) 1 1 :=
  C8_margin_monotone (95/100) 1 0 1 (by norm_num) (by norm_num)

/-- C9 (counterexample): two runs of `generate_forecast` on identical
history, horizon, confidence level and fit outcome, but at different
clock instants, yield different outputs (the `forecast_generated_at`
field differs), refuting two-run determinism of the full output. -/
theorem C9_counterexample :
    generate_forecast raw3 1 (95/100) (.failure .importError) 0 ≠
      generate_forecast raw3 1 (95/100) (.failure .importError) 1 := by
  intro h
  have h2 : (0 : ℤ) = 1 := congrArg stampOf h
  exact absurd h2 (by decide)

/-- C9 (amended): apart from the wall-clock field
`forecast_generated_at`, the output of `generate_forecast` is a function
of history, horizon, confidence level and fit outcome alone: every other
field is identical across two runs. -/
theorem C9_deterministic_modulo_timestamp (raw : List RawEvent)
    (periods : ℕ) (conf : ℚ) (fit : FitOutcome) (now₁ now₂ : ℤ) :
    eraseTimestamp (generate_forecast raw periods conf fit now₁) =
      eraseTimestamp (generate_forecast raw periods conf fit now₂) := by
  unfold generate_forecast
  by_cases h1 : (aggregate raw).isEmpty
  · simp [h1, eraseTimestamp]
  · by_cases h2 : (generate_arima_forecast fit (aggregate raw) periods conf).1.isEmpty
    · simp [h1, h2, eraseTimestamp]
    · simp [h1, h2, eraseTimestamp]

/-- C10: every predicted value, lower bound and upper bound produced by
`generate_arima_forecast` is an integer multiple of `1/100`, i.e. is
rounded to exactly two decimal places, in both branches. -/
theorem C10_two_decimals (fit : FitOutcome) (hist : List HistoricalPoint)
    (per : ℕ) (conf : ℚ) (i : ℕ)
    (hi : i < (generate_arima_forecast fit hist per conf).1.length) :
    ∃ a b c : ℤ,
      ((generate_arima_forecast fit hist per conf).1.getD i default).predicted_value
        = (a : ℝ) / 100 ∧
      ((generate_arima_forecast fit hist per conf).1.getD i default).lower_bound
        = (b : ℝ) / 100 ∧
      ((generate_arima_forecast fit hist per conf).1.getD i default).upper_bound
        = (c : ℝ) / 100 := by
  by_cases h3 : hist.length < 3
  · exfalso
    have : (generate_arima_forecast fit hist per conf).1 = [] := by
      unfold generate_arima_forecast
      rw [if_pos h3]
    rw [this] at hi
    simp at hi
  · have hi' : i < per := by
      rw [gaf_len fit hist per conf h3] at hi
      exact hi
    cases fit with
    | success f =>
        rw [gaf_getD_success f hist per conf i h3 hi']
        exact ⟨_, _, _, rfl, rfl, rfl⟩
    | failure e =>
        rw [gaf_getD_failure e hist per conf i h3 hi']
        exact ⟨_, _, _, rfl, rfl, rfl⟩

theorem C10_witness :
    ∃ a b c : ℤ,
      ((generate_arima_forecast fitConst hist5 1 (95/100)).1.getD 0 default).predicted_value
        = (a : ℝ) / 100 ∧
      ((generate_arima_forecast fitConst hist5 1 (95/100)).1.getD 0 default).lower_bound
        = (b : ℝ) / 100 ∧
      ((generate_arima_forecast fitConst hist5 1 (95/100)).1.getD 0 default).upper_bound
        = (c : ℝ) / 100 :=
  C10_two_decimals fitConst hist5 1 (95/100) 0 (by decide)


theorem codeStd_nonneg (values : List ℝ) : 0 ≤ codeStd values := by
  unfold codeStd
  split
  · exact listStd_nonneg _
  · exact le_rfl

theorem fallback_margin_nonneg (conf : ℚ) {std : ℝ} (hstd : 0 ≤ std) (i : ℕ) :
    0 ≤ fallback_margin (z_score conf : ℝ) std i := by
  unfold fallback_margin
  have hz : (0 : ℝ) ≤ (z_score conf : ℝ) := by
    exact_mod_cast (z_score_pos conf).le
  have hf : (0 : ℝ) ≤ 1 + (i : ℝ) * 0.1 := by positivity
  exact mul_nonneg (mul_nonneg hz hstd) hf

theorem round2_bracket {lo mid hi : ℝ} (h1 : lo ≤ mid) (h2 : mid ≤ hi) :
    0 ≤ round2 (max 0 lo) ∧
    round2 (max 0 lo) ≤ round2 (max 0 mid) ∧
    0 ≤ round2 (max 0 mid) ∧
    (0 ≤ round2 hi → round2 (max 0 mid) ≤ round2 hi) := by
  refine ⟨round2_nonneg (le_max_left _ _),
    round2_mono (max_le_max le_rfl h1),
    round2_nonneg (le_max_left _ _), ?_⟩
  intro hup
  rcases le_or_lt mid 0 with hm | hm
  · rw [max_eq_left hm, round2_zero]
    exact hup
  · rw [max_eq_right hm.le]
    exact round2_mono h2

/-- C3 (amended): every forecast point of both branches satisfies
`0 ≤ lower_bound`, `lower_bound ≤ predicted_value` and
`0 ≤ predicted_value`; and `predicted_value ≤ upper_bound` holds whenever
`upper_bound` is non-negative.  The unclamped upper bound can lie below
the zero-clamped predicted value when the model interval is entirely
negative, so the full chain of the claim only holds under that proviso. -/
theorem C3_bounds (fit : FitOutcome) (hist : List HistoricalPoint)
    (per : ℕ) (conf : ℚ) (i : ℕ) (hwf : FitOk fit)
    (hi : i < (generate_arima_forecast fit hist per conf).1.length) :
    0 ≤ ((generate_arima_forecast fit hist per conf).1.getD i default).lower_bound ∧
    ((generate_arima_forecast fit hist per conf).1.getD i default).lower_bound ≤
      ((generate_arima_forecast fit hist per conf).1.getD i default).predicted_value ∧
    0 ≤ ((generate_arima_forecast fit hist per conf).1.getD i default).predicted_value ∧
    (0 ≤ ((generate_arima_forecast fit hist per conf).1.getD i default).upper_bound →
      ((generate_arima_forecast fit hist per conf).1.getD i default).predicted_value ≤
        ((generate_arima_forecast fit hist per conf).1.getD i default).upper_bound) := by
  by_cases h3 : hist.length < 3
  · exfalso
    have hnil : (generate_arima_forecast fit hist per conf).1 = [] := by
      unfold generate_arima_forecast
      rw [if_pos h3]
    rw [hnil] at hi
    simp at hi
  · have hi' : i < per := by
      rw [gaf_len fit hist per conf h3] at hi
      exact hi
    cases fit with
    | success f =>
        rw [gaf_getD_success f hist per conf i h3 hi']
        exact round2_bracket (hwf i).1 (hwf i).2
    | failure e =>
        rw [gaf_getD_failure e hist per conf i h3 hi']
        have hm := fallback_margin_nonneg conf
          (codeStd_nonneg ((List.insertionSort dateLe hist).map HistoricalPoint.value)) i
        exact round2_bracket (by linarith) (by linarith)

theorem C3_witness :
    0 ≤ ((generate_arima_forecast (.failure .importError) hist5 1 (95/100)).1.getD 0 default).lower_bound ∧
    ((generate_arima_forecast (.failure .importError) hist5 1 (95/100)).1.getD 0 default).lower_bound ≤
      ((generate_arima_forecast (.failure .importError) hist5 1 (95/100)).1.getD 0 default).predicted_value ∧
    0 ≤ ((generate_arima_forecast (.failure .importError) hist5 1 (95/100)).1.getD 0 default).predicted_value ∧
    (0 ≤ ((generate_arima_forecast (.failure .importError) hist5 1 (95/100)).1.getD 0 default).upper_bound →
      ((generate_arima_forecast (.failure .importError) hist5 1 (95/100)).1.getD 0 default).predicted_value ≤
        ((generate_arima_forecast (.failure .importError) hist5 1 (95/100)).1.getD 0 default).upper_bound) :=
  C3_bounds (.failure .importError) hist5 1 (95/100) 0 trivial (by decide)

/-- C3 (counterexample): with a primary-model output whose confidence
interval lies entirely below zero (mean `-10`, interval `[-20, -5]`,
which is a well-formed interval), the zero-clamped predicted value is 0
while the unclamped upper bound is `-5`: the claimed chain
`predicted_value ≤ upper_bound` fails at a concrete run. -/
theorem C3_counterexample :
    FitOk fitNeg ∧
    ¬ ((point0 (generate_forecast raw3 1 (95/100) fitNeg 0)).predicted_value ≤
       (point0 (generate_forecast raw3 1 (95/100) fitNeg 0)).upper_bound) := by
  constructor
  · intro i
    constructor <;> norm_num
  · have hp : (point0 (generate_forecast raw3 1 (95/100) fitNeg 0)).predicted_value
        = round2 (max 0 (-10 : ℝ)) := rfl
    have hu : (point0 (generate_forecast raw3 1 (95/100) fitNeg 0)).upper_bound
        = round2 (-5 : ℝ) := rfl
    rw [hp, hu]
    rw [show max (0 : ℝ) (-10) = 0 by norm_num, round2_zero]
    rw [show ((-5 : ℝ)) = ((-5 : ℤ) : ℝ) by norm_num, round2_intCast]
    norm_num

/-- C5 (counterexample): for raw events on days 0 and 2 only, the
aggregated series has exactly the two buckets day 0 and day 2: the gap
between consecutive aggregated dates is two days, not one, and no
zero-valued bucket is inserted for day 1. -/
theorem C5_counterexample :
    (aggregate rawGap).length = 2 ∧
    ((aggregate rawGap).getD 1 default).date ≠
      ((aggregate rawGap).getD 0 default).date + 1 := by
  constructor <;> decide

/-- C5 (amended): the aggregation step produces a series with strictly
increasing dates containing exactly one bucket per day that has at least
one raw event, with value the sum of that day's event amounts; days
without events are absent rather than filled with zero. -/
theorem C5_aggregation (raw : List RawEvent) :
    List.Pairwise (fun p q : HistoricalPoint => p.date < q.date) (aggregate raw) ∧
    ∀ d : ℤ, (∃ p ∈ aggregate raw, p.date = d ∧ p.value = daySum raw d) ↔
      (∃ e ∈ raw, e.day = d) := by
  refine ⟨aggregate_strictSorted raw, ?_⟩
  intro d
  constructor
  · rintro ⟨p, hp, hd, hv⟩
    unfold aggregate at hp
    obtain ⟨d', hd', hpd⟩ := List.mem_map.mp hp
    have hmem : d' ∈ eventDays raw :=
      ((List.perm_insertionSort _ _).mem_iff).mp hd'
    unfold eventDays at hmem
    obtain ⟨e, he, hde⟩ := List.mem_map.mp (List.mem_dedup.mp hmem)
    refine ⟨e, he, ?_⟩
    have hpd' : p.date = d' := by rw [← hpd]
    rw [hde, ← hpd', hd]
  · rintro ⟨e, he, rfl⟩
    refine ⟨⟨e.day, daySum raw e.day⟩, ?_, rfl, rfl⟩
    unfold aggregate
    apply List.mem_map.mpr
    refine ⟨e.day, ?_, rfl⟩
    apply ((List.perm_insertionSort _ _).mem_iff).mpr
    unfold eventDays
    exact List.mem_dedup.mpr (List.mem_map.mpr ⟨e, he, rfl⟩)


theorem ref_z_eq (c : ℚ) : ref_z c = z_score c := rfl

theorem codeBase_eq_refBase (values : List ℝ) :
    codeBase values = refBase values := by
  unfold codeBase refBase
  rw [convolve_eq_trailingMovingAvg values _ (min_le_right _ _)]
  by_cases hma : trailingMovingAvg values (min 7 values.length) = []
  · rw [if_pos hma, hma]
    simp
  · rw [if_neg hma, if_pos (List.length_pos.mpr hma)]

theorem codeStd_eq_refStdDivN (values : List ℝ) (h : 3 ≤ values.length) :
    codeStd values = refStdDivN values := by
  unfold codeStd refStdDivN listStd
  rw [if_pos (by omega), if_neg (by omega)]

/-- C4 (amended): in fallback mode, for every sorted history of `n ≥ 3`
points and every step index `i < periods`, the code's forecast triple
equals the reference definition amended in exactly two points: the
standard deviation uses divisor `n` (what `np.std` computes) rather than
Bessel's `n - 1`, and all three outputs are rounded half-to-even at two
decimals. -/
theorem C4_fallback_formula (hist : List HistoricalPoint) (per : ℕ)
    (conf : ℚ) (e : ExcKind) (i : ℕ) (h3 : 3 ≤ hist.length)
    (hs : List.Sorted dateLe hist) (hi : i < per) :
    (((generate_arima_forecast (.failure e) hist per conf).1.getD i default).predicted_value,
     ((generate_arima_forecast (.failure e) hist per conf).1.getD i default).lower_bound,
     ((generate_arima_forecast (.failure e) hist per conf).1.getD i default).upper_bound) =
      refC4AmendedPoint (hist.map HistoricalPoint.value) conf i := by
  rw [gaf_getD_failure e hist per conf i (by omega) hi]
  rw [List.Sorted.insertionSort_eq hs]
  have hlen : 3 ≤ (hist.map HistoricalPoint.value).length := by
    rw [List.length_map]
    exact h3
  dsimp only [fallbackPoint, refC4AmendedPoint, fallback_margin]
  rw [codeBase_eq_refBase, codeStd_eq_refStdDivN _ hlen, ref_z_eq]
  have hcomm : (1 + (i : ℝ) * 0.1) = (1 + 0.1 * (i : ℝ)) := by ring
  rw [hcomm]

theorem C4_witness :
    (((generate_arima_forecast (.failure .importError) hist5 1 (95/100)).1.getD 0 default).predicted_value,
     ((generate_arima_forecast (.failure .importError) hist5 1 (95/100)).1.getD 0 default).lower_bound,
     ((generate_arima_forecast (.failure .importError) hist5 1 (95/100)).1.getD 0 default).upper_bound) =
      refC4AmendedPoint (hist5.map HistoricalPoint.value) (95/100) 0 :=
  C4_fallback_formula hist5 1 (95/100) .importError 0 (by decide) (by decide) (by decide)


theorem sqrt_two_lb : (1.414 : ℝ) ≤ Real.sqrt 2 :=
  (Real.le_sqrt (by norm_num) (by norm_num)).mpr (by norm_num)

theorem sqrt_two_ub : Real.sqrt 2 < 1.4143 :=
  (Real.sqrt_lt' (by norm_num)).mpr (by norm_num)

theorem sqrt_three_lb : (1.732 : ℝ) ≤ Real.sqrt 3 :=
  (Real.le_sqrt (by norm_num) (by norm_num)).mpr (by norm_num)

theorem sqrt_three_ub : Real.sqrt 3 < 1.7321 :=
  (Real.sqrt_lt' (by norm_num)).mpr (by norm_num)

theorem round2_ne_1001 : round2 (1.001 : ℝ) ≠ 1.001 := by
  intro h
  obtain ⟨k, hk⟩ := round2_eq_int_div (1.001 : ℝ)
  rw [hk] at h
  have h10 : (10 : ℝ) * (k : ℝ) = 1001 := by linarith
  have h10' : (10 * k : ℤ) = 1001 := by exact_mod_cast h10
  omega

theorem hb1001 : codeBase (hist1001.map HistoricalPoint.value) = 1.001 := by
  norm_num [codeBase, convolveValidUniform, listMean, hist1001, List.range_succ]

theorem hrb1001 : refBase (hist1001.map HistoricalPoint.value) = 1.001 := by
  norm_num [refBase, trailingMovingAvg, listMean, hist1001, List.range_succ]

theorem hb003 : codeBase (hist003.map HistoricalPoint.value) = 1 := by
  norm_num [codeBase, convolveValidUniform, listMean, hist003, List.range_succ]

theorem hsd003 : codeStd (hist003.map HistoricalPoint.value) = Real.sqrt 2 := by
  norm_num [codeStd, listStd, listMean, hist003]

theorem hrb003 : refBase (hist003.map HistoricalPoint.value) = 1 := by
  norm_num [refBase, trailingMovingAvg, listMean, hist003, List.range_succ]

theorem hrs003 : refSampleStd (hist003.map HistoricalPoint.value) = Real.sqrt 3 := by
  norm_num [refSampleStd, listMean, hist003]

theorem hz95 : ((z_score (95/100) : ℚ) : ℝ) = 1.96 := by
  norm_num [z_score]

theorem hz95' : ((ref_z (95/100) : ℚ) : ℝ) = 1.96 := by
  norm_num [ref_z]


/-- C4 (counterexample): the fallback forecast does not equal the claim's
reference definition.  (1) On the constant history `1.001, 1.001, 1.001`
(standard deviation 0 under either divisor) the code's predicted value is
`round(1.001, 2) = 1.0` while the reference's is `1.001`: the reference
omits the rounding the code applies.  (2) On the history `0, 0, 3` even
after rounding the reference's upper bound, the two disagree
(`3.77` vs `4.39`), because the code's `np.std` divides by `n` (std `√2`)
while the sample standard deviation divides by `n - 1` (std `√3`). -/
theorem C4_counterexample :
    ((generate_arima_forecast (.failure .importError) hist1001 1 (95/100)).1.getD 0 default).predicted_value
      ≠ (refC4Point (hist1001.map HistoricalPoint.value) (95/100) 0).1 ∧
    ((generate_arima_forecast (.failure .importError) hist003 1 (95/100)).1.getD 0 default).upper_bound
      ≠ round2 ((refC4Point (hist003.map HistoricalPoint.value) (95/100) 0).2.2) := by
  have hL1 : ((generate_arima_forecast (.failure .importError) hist1001 1
      (95/100)).1.getD 0 default).predicted_value = round2 1.001 := by
    rw [gaf_getD_failure .importError hist1001 1 (95/100) 0 (by decide) (by decide)]
    rw [List.Sorted.insertionSort_eq (show List.Sorted dateLe hist1001 by decide)]
    dsimp only [fallbackPoint]
    rw [hb1001, max_eq_right (by norm_num : (0 : ℝ) ≤ 1.001)]
  have hR1 : (refC4Point (hist1001.map HistoricalPoint.value) (95/100) 0).1
      = 1.001 := by
    dsimp only [refC4Point]
    rw [hrb1001]
    exact max_eq_right (by norm_num)
  have hL2 : ((generate_arima_forecast (.failure .importError) hist003 1
      (95/100)).1.getD 0 default).upper_bound = ((377 : ℤ) : ℝ) / 100 := by
    rw [gaf_getD_failure .importError hist003 1 (95/100) 0 (by decide) (by decide)]
    rw [List.Sorted.insertionSort_eq (show List.Sorted dateLe hist003 by decide)]
    dsimp only [fallbackPoint, fallback_margin]
    rw [hb003, hsd003, hz95]
    unfold round2
    rw [roundHalfEven_eq_of_bounds 377 _
      (by push_cast; nlinarith [sqrt_two_lb])
      (by push_cast; nlinarith [sqrt_two_ub])]
  have hR2 : round2 ((refC4Point (hist003.map HistoricalPoint.value)
      (95/100) 0).2.2) = ((439 : ℤ) : ℝ) / 100 := by
    dsimp only [refC4Point]
    rw [hrb003, hrs003, hz95']
    unfold round2
    rw [roundHalfEven_eq_of_bounds 439 _
      (by push_cast; nlinarith [sqrt_three_lb])
      (by push_cast; nlinarith [sqrt_three_ub])]
  constructor
  · rw [hL1, hR1]
    exact round2_ne_1001
  · rw [hL2, hR2]
    norm_num

end POSForecast
